import Mathlib

/-
  Shallow embedding of the LearnSphere affective-state estimation and
  dropout-risk scoring engine together with its presentation-layer
  consumers (StudentTable.tsx, QuizWindow in MotivationWheel.tsx, and
  the VideoAnalysis teacher-dashboard component).

  The risk-band thresholds and the consumer-side behaviour (state
  normalization, error fallbacks) are embedded directly from the
  TypeScript source.  The backend engine itself (predict_risk and the
  Temporal Smoother behind analyze_frame / session_status) is not part
  of the inspected sources, so those definitions are modelled from the
  specification, as marked in their doc comments.
-/

namespace LearnSphere

/-- The four-way categorical affective state surfaced to consumers.
    In the source this is the TypeScript union
    type Emotion = Stressed | Focused | Confused | Calm
    (EmotionBadge.tsx). -/
inductive AffectiveState where
  | Calm
  | Focused
  | Confused
  | Stressed
deriving DecidableEq, Repr

/-- The consumer components name the same four-member set Emotion. -/
abbrev Emotion := AffectiveState

/-- The discrete risk band shown in the teacher roster. -/
inductive RiskBand where
  | Low
  | Medium
  | High
deriving DecidableEq, Repr

/-- Embedded from StudentTable.tsx, getRiskLevel: the Low/Medium/High
    band derived from a risk score by the fixed thresholds 3.5 and 1.8. -/
def getRiskLevel (score : ℚ) : RiskBand :=
  if score ≥ 7/2 then RiskBand.High
  else if score ≥ 9/5 then RiskBand.Medium
  else RiskBand.Low

/-- C1: the Low/Medium/High band is a pure function of the score (it is a
    function of the score alone; the thresholds 3.5 = 7/2 and 1.8 = 9/5 are
    fixed constants of the definition, not parameters of the call), and the
    band is exactly characterised by the fixed thresholds: High iff
    score ≥ 3.5, Medium iff 1.8 ≤ score < 3.5, Low iff score < 1.8. -/
theorem getRiskLevel_band_thresholds (score : ℚ) :
    (getRiskLevel score = RiskBand.High ↔ 7/2 ≤ score) ∧
    (getRiskLevel score = RiskBand.Medium ↔ 9/5 ≤ score ∧ score < 7/2) ∧
    (getRiskLevel score = RiskBand.Low ↔ score < 9/5) := by
  unfold getRiskLevel
  split_ifs with h1 h2 <;> simp_all
  all_goals linarith

/-- ASCII lower-casing of a string, character by character; this is what
    the TypeScript call data.state.toLowerCase() performs on the ASCII
    state labels exchanged on the wire. -/
def lowerAscii (s : String) : String :=
  String.mk (s.data.map Char.toLower)

/-- Embedded from the state-normalization block shared by QuizWindow
    (MotivationWheel.tsx, analyze-frame handler) and VideoAnalysis
    (session-status polling handler): the lower-cased backend state label
    is collapsed onto the four-member Emotion set, with focused and
    working both mapping to Focused and everything unrecognised mapping
    to Calm. -/
def normalizeState (state : String) : Emotion :=
  let s := lowerAscii state
  if s = "focused" ∨ s = "working" then AffectiveState.Focused
  else if s = "confused" then AffectiveState.Confused
  else if s = "stressed" then AffectiveState.Stressed
  else AffectiveState.Calm

/-- The shape of one analyze-frame response body as consumed by
    QuizWindow: fields state, stress_score, is_stable. -/
structure AnalyzeResponse where
  state : String
  stress_score : ℚ
  is_stable : Bool
deriving DecidableEq, Repr

/-- The slice of QuizWindow display state written by the analysis loop:
    the emotion, stressScore and isStable React state variables. -/
structure QuizView where
  emotion : Emotion
  stressScore : ℚ
  isStable : Bool
deriving DecidableEq, Repr

/-- Embedded from the analysis-loop body of QuizWindow
    (MotivationWheel.tsx): on a successful response all three state
    variables are set from the response; on a transient failure (the
    fetch threw, or res.ok was false — modelled as none) no setter runs,
    so the previous view is kept. -/
def applyFrameResult (prev : QuizView) (result : Option AnalyzeResponse) :
    QuizView :=
  match result with
  | none => prev
  | some data =>
    { emotion := normalizeState data.state
      stressScore := data.stress_score
      isStable := data.is_stable }

/-- Embedded from fetchRisks in StudentTable.tsx: on a successful
    predictRisk call the returned risk_score is recorded; on a failure
    (network error or non-ok response, both surfaced as a thrown error —
    modelled as none) the score 0 is recorded for that student. -/
def recordRisk (result : Option ℚ) : ℚ :=
  match result with
  | some r => r
  | none => 0

/-- C7: on a transient analyze-frame failure (failed fetch or non-ok
    response) the previously displayed reading is kept unchanged — the
    emotion state, stress score and stability flag all retain their
    previous values — and on a success all three fields come from the
    single response, so no partially-applied mixture of old and new
    fields is ever observable. -/
theorem applyFrameResult_transient_failure_keeps_view (prev : QuizView) :
    applyFrameResult prev none = prev ∧
    (applyFrameResult prev none).emotion = prev.emotion ∧
    (applyFrameResult prev none).stressScore = prev.stressScore ∧
    (applyFrameResult prev none).isStable = prev.isStable ∧
    (∀ data : AnalyzeResponse,
      applyFrameResult prev (some data) =
        { emotion := normalizeState data.state
          stressScore := data.stress_score
          isStable := data.is_stable }) :=
  ⟨rfl, rfl, rfl, rfl, fun _ => rfl⟩

/-- The canonical lower-case focused label. -/
def exFocused : String := "focused"

/-- C8: any response whose state field lower-cases to the fifth raw
    label working is normalized to Focused, exactly as a focused
    response is. -/
theorem normalizeState_working_collapses_to_focused (s : String)
    (h : lowerAscii s = "working") :
    normalizeState s = AffectiveState.Focused ∧
    AffectiveState.Focused = normalizeState exFocused := by
  constructor
  · unfold normalizeState
    rw [h]
    simp
  · decide

/-- A concrete mixed-case instance of the working label. -/
def exWorking : String := "Working"

/-- Witness for C8: the concrete response label Working lower-cases to
    working and is displayed as Focused. -/
theorem normalizeState_working_collapses_to_focused_witness :
    lowerAscii exWorking = "working" ∧
    (normalizeState exWorking = AffectiveState.Focused ∧
      AffectiveState.Focused = normalizeState exFocused) :=
  ⟨by decide, normalizeState_working_collapses_to_focused exWorking (by decide)⟩

/-- C9: when a student's predict_risk request fails, the recorded score
    is 0, which the table renders with band Low; the result of a failure
    is literally the same recorded value as a genuine lowest-risk
    response of 0, so the two are indistinguishable in the view. -/
theorem recordRisk_failure_is_low_band :
    recordRisk none = 0 ∧
    getRiskLevel (recordRisk none) = RiskBand.Low ∧
    recordRisk none = recordRisk (some 0) := by
  refine ⟨rfl, ?_, rfl⟩
  unfold recordRisk getRiskLevel
  norm_num

/-- C10: the consumer's state normalization is total: the Emotion type
    has exactly the four members Calm, Focused, Confused, Stressed, and
    any response label whose lower-casing is none of focused, working,
    confused, stressed is displayed as Calm. -/
theorem normalizeState_total_defaults_to_calm :
    (∀ e : Emotion,
      e = AffectiveState.Calm ∨ e = AffectiveState.Focused ∨
      e = AffectiveState.Confused ∨ e = AffectiveState.Stressed) ∧
    (∀ s : String,
      lowerAscii s ≠ "focused" → lowerAscii s ≠ "working" →
      lowerAscii s ≠ "confused" → lowerAscii s ≠ "stressed" →
      normalizeState s = AffectiveState.Calm) := by
  constructor
  · intro e
    cases e <;> simp
  · intro s h1 h2 h3 h4
    unfold normalizeState
    simp only [h1, h2, h3, h4]
    simp

/-- A concrete unrecognised response label. -/
def exUnknown : String := "Drowsy"

/-- Witness for C10: the concrete unrecognised label Drowsy is displayed
    as Calm. -/
theorem normalizeState_total_defaults_to_calm_witness :
    (lowerAscii exUnknown ≠ "focused" ∧ lowerAscii exUnknown ≠ "working" ∧
      lowerAscii exUnknown ≠ "confused" ∧ lowerAscii exUnknown ≠ "stressed") ∧
    normalizeState exUnknown = AffectiveState.Calm :=
  ⟨⟨by decide, by decide, by decide, by decide⟩,
    normalizeState_total_defaults_to_calm.2 exUnknown
      (by decide) (by decide) (by decide) (by decide)⟩

/-- Modelled from the spec: the Temporal Smoother's sliding-window size,
    design default N = 5 (§4.4); the backend engine holding it is not
    part of the inspected sources. -/
def windowSize : ℕ := 5

/-- Modelled from the spec: the EMA smoothing factor, design default
    α = 0.3 (§4.4). -/
def emaAlpha : ℚ := 3/10

/-- Modelled from the spec: the stability margin ⌈N·0.6⌉ of §4.4. -/
def stabilityThreshold : ℕ := Nat.ceil ((windowSize : ℚ) * (6/10))

/-- Modelled from the spec: the alarm ordering
    Stressed > Confused > Focused > Calm of §4.3, as a numeric rank. -/
def alarmRank : AffectiveState → ℕ
  | AffectiveState.Stressed => 3
  | AffectiveState.Confused => 2
  | AffectiveState.Focused => 1
  | AffectiveState.Calm => 0

/-- Modelled from the spec: the reported state of §4.4 — the most
    frequent state in the window, ties broken toward the more alarming
    state in the ordering Stressed > Confused > Focused > Calm. -/
def majorityState (w : List AffectiveState) : AffectiveState :=
  if w.count AffectiveState.Confused ≤ w.count AffectiveState.Stressed ∧
      w.count AffectiveState.Focused ≤ w.count AffectiveState.Stressed ∧
      w.count AffectiveState.Calm ≤ w.count AffectiveState.Stressed then
    AffectiveState.Stressed
  else if w.count AffectiveState.Focused ≤ w.count AffectiveState.Confused ∧
      w.count AffectiveState.Calm ≤ w.count AffectiveState.Confused then
    AffectiveState.Confused
  else if w.count AffectiveState.Calm ≤ w.count AffectiveState.Focused then
    AffectiveState.Focused
  else
    AffectiveState.Calm

/-- Modelled from the spec: is_stable of §4.4 — true iff the window
    holds at least ⌈N·0.6⌉ samples of the most frequent state. -/
def is_stable (w : List AffectiveState) : Bool :=
  stabilityThreshold ≤ w.count (majorityState w)

/-- Modelled from the spec: confidence of §4.4 — the agreement fraction,
    the count of the majority state in the window divided by N. -/
def confidence (w : List AffectiveState) : ℚ :=
  (w.count (majorityState w) : ℚ) / (windowSize : ℚ)

/-- Modelled from the spec: clamping of the returned stress score to
    [0,1] (§4.4). -/
def clamp01 (x : ℚ) : ℚ := max 0 (min 1 x)

/-- Modelled from the spec: one per-session Temporal Smoother — the
    sliding window of the last N raw states and the EMA of the raw
    stress scores (§4.4). -/
structure Smoother where
  window : List AffectiveState
  ema : ℚ
deriving DecidableEq, Repr

/-- Modelled from the spec: applying one raw sample (§4.4) — push the
    raw state into the window evicting the oldest entries beyond N, and
    update the EMA by ema' = α·raw + (1-α)·ema. -/
def pushSample (sm : Smoother) (s : AffectiveState) (raw : ℚ) : Smoother :=
  { window :=
      (sm.window ++ [s]).drop ((sm.window ++ [s]).length - windowSize)
    ema := emaAlpha * raw + (1 - emaAlpha) * sm.ema }

/-- Modelled from the spec: applying a whole sequence of raw samples in
    arrival order. -/
def runSamples (sm : Smoother) (xs : List (AffectiveState × ℚ)) : Smoother :=
  xs.foldl (fun acc p => pushSample acc p.1 p.2) sm

/-- Modelled from the spec: the SmoothedReading returned by
    analyze_frame / session_status (§3, §6). -/
structure SmoothedReading where
  state : AffectiveState
  stress_score : ℚ
  confidence : ℚ
  is_stable : Bool
deriving DecidableEq, Repr

/-- Modelled from the spec: assembling the SmoothedReading from the
    smoother's current window and EMA (§4.4): the majority state, the
    clamped EMA, the agreement fraction, and the stability flag. -/
def analyze (sm : Smoother) : SmoothedReading :=
  { state := majorityState sm.window
    stress_score := clamp01 sm.ema
    confidence := confidence sm.window
    is_stable := is_stable sm.window }

/-- The stability margin ⌈5·0.6⌉ evaluates to 3. -/
theorem stabilityThreshold_eq_three : stabilityThreshold = 3 := by
  unfold stabilityThreshold windowSize
  norm_num

/-- Scenario A window of the spec: [Calm, Calm, Calm, Confused, Calm]. -/
def scenarioA : List AffectiveState :=
  [AffectiveState.Calm, AffectiveState.Calm, AffectiveState.Calm,
    AffectiveState.Confused, AffectiveState.Calm]

/-- C5: for every window content the reported state is a most frequent
    state of the window — no state has a strictly larger count — and any
    state tying the reported state's count is at most as alarming in the
    fixed ordering Stressed > Confused > Focused > Calm. -/
theorem majorityState_most_frequent (w : List AffectiveState)
    (s : AffectiveState) :
    w.count s ≤ w.count (majorityState w) ∧
    (w.count s = w.count (majorityState w) →
      alarmRank s ≤ alarmRank (majorityState w)) := by
  unfold majorityState
  split_ifs with h1 h2 h3 <;> cases s <;>
    refine ⟨?_, fun hEq => ?_⟩ <;>
    first
      | omega
      | (simp only [alarmRank]; omega)

/-- A two-sample window in which Calm and Focused tie. -/
def scenarioTie : List AffectiveState :=
  [AffectiveState.Calm, AffectiveState.Focused]

/-- Witness for C5: in the concrete tied window [Calm, Focused] the
    reported state's count equals Calm's count and Calm is at most as
    alarming as the reported state. -/
theorem majorityState_most_frequent_witness :
    scenarioTie.count AffectiveState.Calm =
      scenarioTie.count (majorityState scenarioTie) ∧
    alarmRank AffectiveState.Calm ≤ alarmRank (majorityState scenarioTie) :=
  ⟨by decide,
    (majorityState_most_frequent scenarioTie AffectiveState.Calm).2 (by decide)⟩

/-- C3: for every window content is_stable holds exactly when the window
    contains at least ⌈N·0.6⌉ samples of the reported (most frequent)
    state; and in the concrete scenario window
    [Calm, Calm, Calm, Confused, Calm] with N = 5 the majority is Calm,
    the confidence is 0.8 and is_stable is true. -/
theorem is_stable_iff_majority_margin :
    (∀ w : List AffectiveState,
      is_stable w = true ↔ stabilityThreshold ≤ w.count (majorityState w)) ∧
    (majorityState scenarioA = AffectiveState.Calm ∧
      confidence scenarioA = 4/5 ∧
      is_stable scenarioA = true) := by
  refine ⟨fun w => ?_, ?_, ?_, ?_⟩
  · simp [is_stable]
  · decide
  · have h : scenarioA.count (majorityState scenarioA) = 4 := by decide
    simp [confidence, h, windowSize]
  · simp only [is_stable, stabilityThreshold_eq_three]
    decide

/-- C4: for every smoother state the confidence returned by analyze is
    exactly the count of the returned (majority) state in the current
    window divided by N; consequently the returned stability flag is
    consistent with the returned confidence: it is set exactly when
    N times the confidence reaches the stability margin. -/
theorem analyze_confidence_agreement_fraction (sm : Smoother) :
    (analyze sm).confidence =
      ((sm.window.count ((analyze sm).state) : ℚ)) / (windowSize : ℚ) ∧
    ((analyze sm).is_stable = true ↔
      (stabilityThreshold : ℚ) ≤ (windowSize : ℚ) * (analyze sm).confidence) := by
  refine ⟨rfl, ?_⟩
  have hc : (windowSize : ℚ) * confidence sm.window
      = (sm.window.count (majorityState sm.window) : ℚ) := by
    unfold confidence windowSize
    field_simp
  show is_stable sm.window = true ↔
    (stabilityThreshold : ℚ) ≤ (windowSize : ℚ) * confidence sm.window
  rw [hc]
  simp only [is_stable, decide_eq_true_eq]
  exact_mod_cast Iff.rfl

/-- C6: for every starting smoother and every sequence of raw samples,
    the stress_score returned by analyze is the current EMA value —
    obtained by folding ema' = α·raw + (1-α)·ema over the samples —
    clamped to [0,1], and so always lies in [0,1] whatever the raw
    values were. -/
theorem analyze_stress_score_clamped_ema (sm0 : Smoother)
    (xs : List (AffectiveState × ℚ)) :
    (analyze (runSamples sm0 xs)).stress_score =
      clamp01 (runSamples sm0 xs).ema ∧
    (∀ (sm : Smoother) (s : AffectiveState) (raw : ℚ),
      (pushSample sm s raw).ema = emaAlpha * raw + (1 - emaAlpha) * sm.ema) ∧
    0 ≤ (analyze (runSamples sm0 xs)).stress_score ∧
    (analyze (runSamples sm0 xs)).stress_score ≤ 1 := by
  refine ⟨rfl, fun _ _ _ => rfl, le_max_left 0 _, ?_⟩
  exact max_le (by norm_num) (min_le_left 1 (runSamples sm0 xs).ema)

/-- Modelled from the spec: the RiskFeatureVector of §3 — the fixed
    feature set sent by the roster view (api.ts, predictRisk body):
    avg_score in [0,100], stress_level and confidence_level in [0,1],
    login_count a non-negative integer, avg_session_time non-negative
    minutes. The Aggregator and Scorer behind the predict endpoint are
    not part of the inspected sources. -/
structure RiskFeatureVector where
  avg_score : ℚ
  stress_level : ℚ
  confidence_level : ℚ
  login_count : ℕ
  avg_session_time : ℚ
deriving DecidableEq, Repr

/-- Modelled from the spec: normalization of the login count to [0,1];
    the spec fixes only that each feature is normalized to [0,1] and
    that the score decreases as the count grows, so a capped linear
    normalization is used. -/
def normLogin (n : ℕ) : ℚ := min ((n : ℚ) / 30) 1

/-- Modelled from the spec: normalization of the average session time
    (minutes) to [0,1], capped linear as for the login count. -/
def normSession (t : ℚ) : ℚ := min (t / 60) 1

/-- Modelled from the spec: the Dropout-Risk Scorer of §4.7 — each
    feature normalized to [0,1], combined with fixed non-negative
    weights summing to 1 (stress 3/10, performance 3/10, confidence
    2/10, logins 1/10, session time 1/10), the protective features
    entering reversed as 1 - value, scaled to the [0,5] output range. -/
def predict_risk (v : RiskFeatureVector) : ℚ :=
  5 * (3/10 * v.stress_level +
    3/10 * (1 - v.avg_score / 100) +
    2/10 * (1 - v.confidence_level) +
    1/10 * (1 - normLogin v.login_count) +
    1/10 * (1 - normSession v.avg_session_time))

/-- The capped login normalization is monotone in the count. -/
theorem normLogin_mono {m n : ℕ} (h : m ≤ n) : normLogin m ≤ normLogin n := by
  unfold normLogin
  have hq : (m : ℚ) / 30 ≤ (n : ℚ) / 30 := by
    have : (m : ℚ) ≤ (n : ℚ) := by exact_mod_cast h
    linarith
  exact min_le_min hq le_rfl

/-- The capped session-time normalization is monotone in the time. -/
theorem normSession_mono {t t' : ℚ} (h : t ≤ t') :
    normSession t ≤ normSession t' := by
  unfold normSession
  exact min_le_min (by linarith) le_rfl

/-- C2: predict_risk is monotone per feature, all other features held
    equal — raising stress_level never lowers the score, and raising
    avg_score, confidence_level, login_count or avg_session_time never
    raises it. -/
theorem predict_risk_monotone :
    (∀ (v : RiskFeatureVector) (x : ℚ), v.stress_level ≤ x →
      predict_risk v ≤ predict_risk { v with stress_level := x }) ∧
    (∀ (v : RiskFeatureVector) (x : ℚ), v.avg_score ≤ x →
      predict_risk { v with avg_score := x } ≤ predict_risk v) ∧
    (∀ (v : RiskFeatureVector) (x : ℚ), v.confidence_level ≤ x →
      predict_risk { v with confidence_level := x } ≤ predict_risk v) ∧
    (∀ (v : RiskFeatureVector) (n : ℕ), v.login_count ≤ n →
      predict_risk { v with login_count := n } ≤ predict_risk v) ∧
    (∀ (v : RiskFeatureVector) (t : ℚ), v.avg_session_time ≤ t →
      predict_risk { v with avg_session_time := t } ≤ predict_risk v) := by
  refine ⟨fun v x h => ?_, fun v x h => ?_, fun v x h => ?_,
    fun v n h => ?_, fun v t h => ?_⟩ <;> unfold predict_risk <;> simp only
  · linarith
  · linarith
  · linarith
  · have := normLogin_mono h
    linarith
  · have := normSession_mono h
    linarith

/-- The concrete low-risk student of the spec's scenario C. -/
def vLowRisk : RiskFeatureVector :=
  { avg_score := 90
    stress_level := 1/10
    confidence_level := 9/10
    login_count := 30
    avg_session_time := 45 }

/-- Witness for C2: raising the low-risk student's stress level from
    0.1 to 1 does not lower the predicted risk. -/
theorem predict_risk_monotone_witness :
    vLowRisk.stress_level ≤ 1 ∧
    predict_risk vLowRisk ≤ predict_risk { vLowRisk with stress_level := 1 } :=
  ⟨by norm_num [vLowRisk], predict_risk_monotone.1 vLowRisk 1 (by norm_num [vLowRisk])⟩

end LearnSphere
